import Mathlib

/-!
Verification development for the WSL Orchestrator (`src/app.py`).

The orchestration core of the program is embedded shallowly:

* `parseLineL` / `parseWSLOutput` embed the listing parser in
  `populate_wsl_list` (lines 198-217 of `app.py`);
* `populate_wsl_list` embeds the registry refresh (clear, run
  `wsl --list --verbose`, parse or leave empty);
* `rename_distro` embeds the validation gate of the rename action
  (lines 289-309);
* `rename_worker` embeds the compound export / unregister / import
  worker `_rename_worker` (lines 311-332), with the external tool
  modelled as an oracle `run : List String → String` and the side
  effects (commands issued, files removed, directories created)
  recorded in a trace;
* `check_rename_status` embeds the result classification of
  `check_rename_status` (lines 347-357);
* `shortcut_command` embeds the shortcut-string construction of
  `on_item_select` (lines 237-241).

Python string/regex primitives used by the source are embedded as
executable functions on `List Char` (`pyStrip`, `reSplitWs2`,
`pyWordChar`, ...), with their Unicode tables spelled out over the
Latin-1 range, which is exact for every input analysed here.
-/

/-- Python `str.isspace` / regex `\s` for one character, over the
Latin-1 range: ASCII whitespace (including vertical tab, form feed and
the file separators U+001C..U+001F), NEL (U+0085) and NBSP (U+00A0).
Higher Unicode space codepoints are not reached by any input
considered in this development. -/
def pySpace (c : Char) : Bool :=
  c == ' ' || c == '\t' || c == '\n' || c == '\r' ||
  c == '\x0b' || c == '\x0c' ||
  c.toNat == 0x1c || c.toNat == 0x1d || c.toNat == 0x1e || c.toNat == 0x1f ||
  c.toNat == 0x85 || c.toNat == 0xa0

/-- Python `str.strip()` (no argument): remove leading and trailing
whitespace characters. -/
def pyStrip (cs : List Char) : List Char :=
  ((cs.dropWhile pySpace).reverse.dropWhile pySpace).reverse

/-- Python `str.lstrip()` (no argument): remove leading whitespace. -/
def pyLStrip (cs : List Char) : List Char :=
  cs.dropWhile pySpace

/-- Python regex `\w` with the default (Unicode) semantics, as used in
`re.sub(r'[^\w.-]', '', name)`: ASCII `[A-Za-z0-9_]` together with
non-ASCII alphanumeric codepoints.  The table is exact below U+0100
(the Latin-1 letters U+00C0..U+00FF minus the two operators × and ÷,
the letters ª µ º, and the numeric forms ² ³ ¹ ¼ ½ ¾); codepoints from
U+0100 upward are treated as word characters, which is exact for
letters and digits (the case arising from distribution names). -/
def pyWordChar (c : Char) : Bool :=
  c.isAlphanum || c == '_' ||
  c.toNat == 0xAA || c.toNat == 0xB2 || c.toNat == 0xB3 || c.toNat == 0xB5 ||
  c.toNat == 0xB9 || c.toNat == 0xBA ||
  c.toNat == 0xBC || c.toNat == 0xBD || c.toNat == 0xBE ||
  (decide (0xC0 ≤ c.toNat) && decide (c.toNat ≤ 0xFF) &&
    !(c.toNat == 0xD7) && !(c.toNat == 0xF7)) ||
  decide (0x100 ≤ c.toNat)

/-- The character class kept by `re.sub(r'[^\w.-]', '', parts[0])` at
line 213 of `app.py`: word characters, dot and hyphen. -/
def nameKeep (c : Char) : Bool :=
  pyWordChar c || c == '.' || c == '-'

/-- Name sanitization of line 213: `re.sub(r'[^\w.-]', '', parts[0])`
removes every character outside the class. -/
def sanitizeL (cs : List Char) : List Char :=
  cs.filter nameKeep

/-- String-level wrapper for the name sanitization. -/
def sanitizeName (s : String) : String :=
  String.mk (sanitizeL s.toList)

/-- Field cleaning of lines 214-215: `parts[i].strip().replace('\x00', '')`. -/
def cleanFieldL (cs : List Char) : List Char :=
  (pyStrip cs).filter (fun c => !(c == '\x00'))

/-- Helper for `reSplitWs2`: walks the characters left to right keeping
the (reversed) current token `tok` and the (reversed) run of pending
whitespace `pend`; a pending run of length ≥ 2 acts as a separator,
exactly as a greedy `re.split(r'\s{2,}', ...)` does. -/
def reSplitWs2Aux : List Char → List Char → List Char → List (List Char)
  | [], tok, pend =>
    if 2 ≤ pend.length then [tok.reverse, []]
    else [(pend ++ tok).reverse]
  | c :: cs, tok, pend =>
    if pySpace c then reSplitWs2Aux cs tok (c :: pend)
    else if 2 ≤ pend.length then tok.reverse :: reSplitWs2Aux cs [c] []
    else reSplitWs2Aux cs (c :: (pend ++ tok)) []

/-- Python `re.split(r'\s{2,}', s)` of line 211: split on maximal runs
of two or more whitespace characters (a leading or trailing separator
contributes an empty field, as with `re.split`). -/
def reSplitWs2 (cs : List Char) : List (List Char) :=
  reSplitWs2Aux cs [] []

/-- Default-marker handling of lines 207-210: a line that starts with
`*` has the marker removed and the remainder left-stripped
(`cleaned_line[1:].lstrip()`); any other line is kept as is. -/
def markerStrip (cleaned : List Char) : List Char :=
  if cleaned.head? == some '*' then pyLStrip (cleaned.drop 1) else cleaned

/-- One row of the registry, exactly the triple inserted into the tree
at line 216: `self.tree.insert("", "end", values=(name, state, version))`. -/
structure Instance where
  name : String
  state : String
  version : String
deriving DecidableEq, Repr

/-- Per-line parsing of lines 204-216 of `app.py`: strip the line,
remove any leading byte-order marks, skip it when empty, strip a
leading default marker, split on runs of 2+ whitespace, and build a
row only when exactly 3 fields result. -/
def parseLineL (line : List Char) : Option Instance :=
  let cleaned := (pyStrip line).dropWhile (fun c => c == '\uFEFF')
  if cleaned.isEmpty then none
  else
    match reSplitWs2 (markerStrip cleaned) with
    | [p0, p1, p2] =>
      some ⟨String.mk (sanitizeL p0), String.mk (cleanFieldL p1),
            String.mk (cleanFieldL p2)⟩
    | _ => none

/-- String-level wrapper for the per-line parser. -/
def parseLine (line : String) : Option Instance :=
  parseLineL line.toList

/-- Python `s.split('\n')`: split on every single newline. -/
def splitOnNl : List Char → List (List Char)
  | [] => [[]]
  | c :: cs =>
    if c == '\n' then [] :: splitOnNl cs
    else
      match splitOnNl cs with
      | [] => [[c]]
      | t :: ts => (c :: t) :: ts

/-- Whole-output parsing of lines 203-216:
`output.strip().split('\n')[1:]` discards the header line, then each
remaining line is parsed and rows of other shapes are skipped. -/
def parseWSLOutput (output : String) : List Instance :=
  ((splitOnNl (pyStrip output.toList)).drop 1).filterMap parseLineL

/-- Python `str.startswith`. -/
def pyStartsWith (s pat : String) : Bool :=
  s.toList.take pat.toList.length == pat.toList

/-- Python string truthiness (`if result and ...`): non-empty. -/
def pyTruthy (s : String) : Bool :=
  !s.toList.isEmpty

/-- Registry refresh, `populate_wsl_list` (lines 198-217): the tree is
cleared before the list command runs, so the prior snapshot `prior` is
discarded; if the command produced no output or an error-prefixed
output the registry is left empty, otherwise it is the parse of the
output. -/
def populate_wsl_list (prior : List Instance) (output : Option String) :
    List Instance :=
  match output with
  | none => []
  | some out => if pyStartsWith out "Error:" then [] else parseWSLOutput out

/-- Python `c in s` for a single character (`' ' in distro_name`). -/
def pyInChar (c : Char) (s : String) : Bool :=
  s.toList.any (fun a => a == c)

/-- Shortcut-command construction of lines 237-241 of `on_item_select`:
the distro name is wrapped in double quotes exactly when it contains a
space. -/
def shortcut_command (distro_name : String) : String :=
  if pyInChar ' ' distro_name then "wsl.exe -d \"" ++ distro_name ++ "\""
  else "wsl.exe -d " ++ distro_name

/-- Outcome of the rename action: either the request is refused before
the worker thread is started (no external command is issued by
`rename_distro` itself), or the worker is started with the two names. -/
inductive RenameOutcome where
  | refused
  | started (old_name new_name : String)
deriving DecidableEq, Repr

/-- Validation gate of `rename_distro` (lines 289-309): the rename is
refused when the selected state is not `Stopped`, when the dialog is
cancelled (`None`), when the new name is empty or whitespace-only or
equal to the old name, when it contains a space, when it is already in
the registry snapshot, or when the user declines the confirmation.
Only after all gates pass is the worker started. -/
def rename_distro (old_name state : String) (dialog : Option String)
    (current_names : List String) (confirmed : Bool) : RenameOutcome :=
  if state ≠ "Stopped" then RenameOutcome.refused
  else match dialog with
  | none => RenameOutcome.refused
  | some new_name =>
    if new_name = "" ∨ String.mk (pyStrip new_name.toList) = "" ∨
        new_name = old_name then RenameOutcome.refused
    else if pyInChar ' ' new_name then RenameOutcome.refused
    else if new_name ∈ current_names then RenameOutcome.refused
    else if !confirmed then RenameOutcome.refused
    else RenameOutcome.started old_name new_name

/-- Windows `os.path.join` for one component. -/
def joinPath (a b : String) : String := a ++ "\\" ++ b

/-- Side-effect trace of one `_rename_worker` execution: the `wsl`
invocations in order, the files passed to `os.remove`, the directories
passed to `os.makedirs`, and the final `rename_result` message. -/
structure WorkerTrace where
  commands : List (List String)
  removed : List String
  madeDirs : List String
  result : String
deriving DecidableEq, Repr

/-- The compound rename worker `_rename_worker` (lines 311-332).  The
external tool is an oracle `run`; `tmp` is `tempfile.gettempdir()`,
`home` is `os.path.expanduser('~')`, and `success_msg` is the localized
`rename_success_message` text (the string table is an external
collaborator).  Note that both failure branches after a successful
export call `os.remove(export_file)`. -/
def rename_worker (run : List String → String)
    (old_name new_name tmp home success_msg : String) : WorkerTrace :=
  let export_file := joinPath tmp (old_name ++ "_export.tar")
  let c1 := ["wsl", "--export", old_name, export_file]
  let r1 := run c1
  if pyTruthy r1 && pyStartsWith r1 "Error:" then
    ⟨[c1], [], [], "Export failed:\n" ++ r1⟩
  else
    let c2 := ["wsl", "--unregister", old_name]
    let r2 := run c2
    if pyTruthy r2 && pyStartsWith r2 "Error:" then
      ⟨[c1, c2], [export_file], [], "Unregister failed:\n" ++ r2⟩
    else
      let docs_path := joinPath home "Documents"
      let import_dir := joinPath (joinPath docs_path "WSL_Distros") new_name
      let c3 := ["wsl", "--import", new_name, import_dir, export_file]
      let r3 := run c3
      if pyTruthy r3 && pyStartsWith r3 "Error:" then
        ⟨[c1, c2, c3], [export_file], [import_dir], "Import failed:\n" ++ r3⟩
      else
        ⟨[c1, c2, c3], [export_file], [import_dir], success_msg⟩

/-- Does `pat` occur at the head of `s`? (list-level `startswith`). -/
def startsWithL : List Char → List Char → Bool
  | _, [] => true
  | [], _ :: _ => false
  | c :: cs, p :: ps => c == p && startsWithL cs ps

/-- Does `pat` occur as a contiguous substring of the second list?
This is Python's `pat in s` for strings. -/
def containsSubL (pat : List Char) : List Char → Bool
  | [] => pat.isEmpty
  | c :: cs => startsWithL (c :: cs) pat || containsSubL pat cs

/-- Python `str.lower()`, restricted to ASCII lowering (the only
substring tested against it, `"failed"`, is ASCII). -/
def pyLower (s : String) : String :=
  String.mk (s.toList.map Char.toLower)

/-- Python substring test `needle in hay` at the string level. -/
def pyContains (hay needle : String) : Bool :=
  containsSubL needle.toList hay.toList

/-- Which dialog `check_rename_status` opens once the worker ended. -/
inductive Dialog where
  | error
  | info
deriving DecidableEq, Repr

/-- Result classification of `check_rename_status` (lines 347-357): an
error dialog is shown exactly when `"failed" in self.rename_result.lower()`. -/
def check_rename_status (rename_result : String) : Dialog :=
  if pyContains (pyLower rename_result) "failed" then Dialog.error
  else Dialog.info

/-- The character class of the regex `^[A-Za-z0-9._-]*$` stated by the
specification for sanitized names (stated from the specification's
words, to be compared with `nameKeep` from the source). -/
def specNameClass (c : Char) : Bool :=
  c.isAlpha || c.isDigit || c == '.' || c == '_' || c == '-'

/-- Oracle in which every invocation of the tool fails. -/
def alwaysErrorRun : List String → String := fun _ => "Error: boom"

/-- Oracle for the unregister-failure scenario: the export of `Ubuntu`
succeeds (empty stdout), its unregister fails. -/
def unregisterFailRun : List String → String := fun c =>
  if c = ["wsl", "--unregister", "Ubuntu"] then
    "Error: Command Error\nAccess is denied."
  else ""

/-- Unfolding `String.toList` over a string-level append. -/
theorem toList_string_append (a b : String) :
    (a ++ b).toList = a.toList ++ b.toList := by
  cases a
  cases b
  rfl

/-- `startsWithL` holds when the text literally begins with the pattern. -/
theorem startsWithL_append_self (pat r : List Char) :
    startsWithL (pat ++ r) pat = true := by
  induction pat with
  | nil =>
    cases r <;> rfl
  | cons p ps ih =>
    simp [startsWithL, ih]

/-- A head match gives a substring occurrence. -/
theorem containsSubL_of_startsWithL (pat s : List Char)
    (h : startsWithL s pat = true) : containsSubL pat s = true := by
  cases s with
  | nil =>
    cases pat with
    | nil => rfl
    | cons p ps => simp [startsWithL] at h
  | cons c cs => simp [containsSubL, h]

/-- A pattern sandwiched anywhere inside a list is found by `containsSubL`. -/
theorem containsSubL_sandwich (pat l r : List Char) :
    containsSubL pat (l ++ (pat ++ r)) = true := by
  induction l with
  | nil =>
    simp only [List.nil_append]
    exact containsSubL_of_startsWithL pat (pat ++ r) (startsWithL_append_self pat r)
  | cons c cs ih =>
    simp [containsSubL, ih]

/-- Characters kept by the sanitizer are never a space, never ASCII
whitespace, and never NUL. -/
theorem nameKeep_not_space {c : Char} (h : nameKeep c = true) :
    c ≠ ' ' ∧ c.isWhitespace = false ∧ c ≠ '\x00' := by
  refine ⟨?_, ?_, ?_⟩
  · rintro rfl
    exact absurd h (by decide)
  · cases hw : c.isWhitespace
    · rfl
    · simp only [Char.isWhitespace] at hw
      have hor := hw
      simp only [Bool.or_eq_true, decide_eq_true_eq] at hor
      rcases hor with ((rfl | rfl) | rfl) | rfl <;> exact absurd h (by decide)
  · rintro rfl
    exact absurd h (by decide)

example : parseLine "* mydistro   Running   2" =
    some ⟨"mydistro", "Running", "2"⟩ := by decide

example : parseWSLOutput
    "NAME STATE VERSION\n  Ubuntu    Stopped    2\n* Debian     Running    1\n" =
    [⟨"Ubuntu", "Stopped", "2"⟩, ⟨"Debian", "Running", "1"⟩] := by decide

example : sanitizeName "b\x00ad nam*e!" = "badname" := by decide

example : rename_distro "Ubuntu" "Stopped" (some "a\tb") ["Ubuntu"] true =
    RenameOutcome.started "Ubuntu" "a\tb" := by decide

/-- C2 counterexample: the registry row built from a listing line is
the bare triple (name, state, version) — the program records no
`isDefault` flag.  The marked line `"* mydistro   Running   2"` and
the same line without the marker parse to the *identical* row, so the
claimed `isDefault: true` component does not exist in the parse
result: the claim as stated is false of the code. -/
theorem default_marker_not_recorded :
    parseLine "* mydistro   Running   2" = some ⟨"mydistro", "Running", "2"⟩ ∧
    parseLine "mydistro   Running   2" = some ⟨"mydistro", "Running", "2"⟩ := by
  decide

/-- C2 (amended): for every listing line that begins with the default
marker `*`, the parser removes the marker (and the whitespace after
it) before splitting into fields, and the line
`"* mydistro   Running   2"` parses to the row
`{name: "mydistro", state: "Running", version: "2"}`; no `isDefault`
flag is recorded. -/
theorem marker_line_parses_to_row :
    (∀ cs : List Char, markerStrip ('*' :: cs) = pyLStrip cs) ∧
    parseLine "* mydistro   Running   2" =
      some ⟨"mydistro", "Running", "2"⟩ := by
  constructor
  · intro cs
    rfl
  · decide

/-- C3 counterexample: parsing the given raw output yields the two
rows `(Ubuntu, Stopped, 2)` and `(Debian, Running, 1)`, and the same
output with the default marker of the Debian line blanked out yields
the identical rows — the `isDefault` values asserted by the claim
(`false` for Ubuntu, `true` for Debian) are not part of the parse
result, so the claim as stated is false of the code. -/
theorem listing_scenario_marker_unobservable :
    parseWSLOutput
      "NAME STATE VERSION\n  Ubuntu    Stopped    2\n* Debian     Running    1\n" =
      [⟨"Ubuntu", "Stopped", "2"⟩, ⟨"Debian", "Running", "1"⟩] ∧
    parseWSLOutput
      "NAME STATE VERSION\n  Ubuntu    Stopped    2\n  Debian     Running    1\n" =
      [⟨"Ubuntu", "Stopped", "2"⟩, ⟨"Debian", "Running", "1"⟩] := by
  decide

/-- C3 (amended): parsing the raw output
`"NAME STATE VERSION\n  Ubuntu    Stopped    2\n* Debian     Running    1\n"`
yields exactly two rows in this order —
`{name: Ubuntu, state: Stopped, version: 2}` then
`{name: Debian, state: Running, version: 1}` — with the header line
discarded; the rows carry no `isDefault` flag. -/
theorem listing_scenario_two_rows :
    parseWSLOutput
      "NAME STATE VERSION\n  Ubuntu    Stopped    2\n* Debian     Running    1\n" =
      [⟨"Ubuntu", "Stopped", "2"⟩, ⟨"Debian", "Running", "1"⟩] := by
  decide

/-- C8: the parser is a deterministic function of the raw listing
text — parsing the same text twice yields identical instance
sequences, and the refreshed registry does not depend on whatever
snapshot was present before the refresh. -/
theorem parse_deterministic (raw : String) (p q : List Instance) :
    parseWSLOutput raw = parseWSLOutput raw ∧
    populate_wsl_list p (some raw) = populate_wsl_list q (some raw) :=
  ⟨rfl, rfl⟩

/-- Nat disequality helper for the ASCII split of the word class. -/
theorem natBeq_false_of_lt {x n : Nat} (hx : x < 128) (hn : 128 ≤ n) :
    (x == n) = false := by
  rw [beq_eq_false_iff_ne]
  omega

/-- On the ASCII range, the class kept by the code's
`re.sub(r'[^\w.-]', '', ...)` coincides with the class
`[A-Za-z0-9._-]` stated by the specification. -/
theorem nameKeep_ascii_spec {c : Char} (hlt : c.toNat < 128)
    (h : nameKeep c = true) : specNameClass c = true := by
  have hAA : (c.toNat == 0xAA) = false := natBeq_false_of_lt hlt (by omega)
  have hB2 : (c.toNat == 0xB2) = false := natBeq_false_of_lt hlt (by omega)
  have hB3 : (c.toNat == 0xB3) = false := natBeq_false_of_lt hlt (by omega)
  have hB5 : (c.toNat == 0xB5) = false := natBeq_false_of_lt hlt (by omega)
  have hB9 : (c.toNat == 0xB9) = false := natBeq_false_of_lt hlt (by omega)
  have hBA : (c.toNat == 0xBA) = false := natBeq_false_of_lt hlt (by omega)
  have hBC : (c.toNat == 0xBC) = false := natBeq_false_of_lt hlt (by omega)
  have hBD : (c.toNat == 0xBD) = false := natBeq_false_of_lt hlt (by omega)
  have hBE : (c.toNat == 0xBE) = false := natBeq_false_of_lt hlt (by omega)
  have hC0 : decide (0xC0 ≤ c.toNat) = false := by
    rw [decide_eq_false_iff_not]
    omega
  have h100 : decide (0x100 ≤ c.toNat) = false := by
    rw [decide_eq_false_iff_not]
    omega
  simp only [nameKeep, pyWordChar, hAA, hB2, hB3, hB5, hB9, hBA, hBC, hBD,
    hBE, hC0, h100, Bool.false_and, Bool.and_false, Bool.or_false,
    Char.isAlphanum, Bool.or_eq_true] at h
  simp only [specNameClass, Bool.or_eq_true]
  tauto

/-- C4 (amended): for ASCII raw name fields the sanitized name matches
`^[A-Za-z0-9._-]*$` — every ASCII character outside the class,
embedded NUL bytes in particular, is removed; NUL is removed from
*every* raw name field.  (For non-ASCII input the original claim
fails: the code's `\w` is Unicode-aware, see
`sanitize_keeps_unicode_letters`.) -/
theorem sanitize_ascii_matches_class (s : String)
    (h : ∀ c ∈ s.toList, c.toNat < 128) :
    (∀ c ∈ (sanitizeName s).toList, specNameClass c = true) ∧
    (∀ t : String, '\x00' ∉ (sanitizeName t).toList) := by
  constructor
  · intro c hc
    have hmem : c ∈ s.toList.filter nameKeep := hc
    have hsplit := List.mem_filter.mp hmem
    exact nameKeep_ascii_spec (h c hsplit.1) hsplit.2
  · intro t ht
    have hmem : ('\x00' : Char) ∈ t.toList.filter nameKeep := ht
    have hsplit := List.mem_filter.mp hmem
    exact absurd hsplit.2 (by decide)

/-- C4 witness: a concrete ASCII name field with an embedded NUL, a
space and punctuation is sanitized into the spec's class. -/
theorem sanitize_ascii_matches_class_witness :
    (∀ c ∈ ("b\x00ad nam*e!" : String).toList, c.toNat < 128) ∧
    ((∀ c ∈ (sanitizeName "b\x00ad nam*e!").toList, specNameClass c = true) ∧
     (∀ t : String, '\x00' ∉ (sanitizeName t).toList)) :=
  ⟨by decide, sanitize_ascii_matches_class "b\x00ad nam*e!" (by decide)⟩

/-- C4 counterexample: the code's character class is Python's Unicode
`\w`, not `[A-Za-z0-9._-]`: the name field `"Café"` is kept unchanged
by the sanitizer, yet `é` is outside the spec's class, so the
sanitized name does not match `^[A-Za-z0-9._-]*$`. -/
theorem sanitize_keeps_unicode_letters :
    sanitizeName "Café" = "Café" ∧
    (sanitizeName "Café").toList.all specNameClass = false := by
  decide

/-- C5 counterexample: the code only rejects the *space* character
(`' ' in new_name`), not all whitespace: with the selected instance
`Ubuntu` stopped, entering the new name `"a\tb"` (which contains a
tab, a whitespace character) passes every gate and the worker is
started — the claim that a whitespace-containing name is refused is
false of the code. -/
theorem rename_tab_name_not_refused :
    rename_distro "Ubuntu" "Stopped" (some "a\tb") ["Ubuntu"] true =
      RenameOutcome.started "Ubuntu" "a\tb" ∧
    ('\t'.isWhitespace = true) ∧ pyInChar '\t' "a\tb" = true := by
  decide

/-- C5 (amended): every rename request that violates a validation
precondition — state not `Stopped`, empty new name, new name equal to
the old one, new name containing a *space* character, or new name
already present in the registry snapshot — is refused before any
external tool invocation and before the worker thread is started
(`RenameOutcome.refused` carries no started worker and `rename_distro`
issues no command). -/
theorem rename_validation_gate (old state new : String)
    (names : List String) (conf : Bool)
    (h : state ≠ "Stopped" ∨ new = "" ∨ new = old ∨
         pyInChar ' ' new = true ∨ new ∈ names) :
    rename_distro old state (some new) names conf = RenameOutcome.refused := by
  simp only [rename_distro]
  split
  · rfl
  · rename_i hstate
    split
    · rfl
    · rename_i hfirst
      split
      · rfl
      · rename_i hspace
        split
        · rfl
        · rename_i hdup
          split
          · rfl
          · exfalso
            rcases h with h | h | h | h | h
            · exact hstate h
            · exact hfirst (Or.inl h)
            · exact hfirst (Or.inr (Or.inr h))
            · exact hspace h
            · exact hdup h

/-- C5 witness: a rename attempted on a running instance is refused. -/
theorem rename_validation_gate_witness :
    (("Running" : String) ≠ "Stopped" ∨ ("Mint" : String) = "" ∨
     ("Mint" : String) = "Ubuntu" ∨ pyInChar ' ' "Mint" = true ∨
     ("Mint" : String) ∈ (["Ubuntu"] : List String)) ∧
    rename_distro "Ubuntu" "Running" (some "Mint") ["Ubuntu"] true =
      RenameOutcome.refused :=
  ⟨Or.inl (by decide),
   rename_validation_gate "Ubuntu" "Running" "Mint" ["Ubuntu"] true
     (Or.inl (by decide))⟩

/-- C6: if the export step fails, the worker aborts with the
`Export failed` message: the only command ever issued is the export
command (neither `--unregister` nor `--import` is invoked), no file is
removed (the temp archive path is never referenced for cleanup) and no
directory is created. -/
theorem export_failure_halts (run : List String → String)
    (old new tmp home smsg : String)
    (h : (pyTruthy (run ["wsl", "--export", old,
            joinPath tmp (old ++ "_export.tar")]) &&
          pyStartsWith (run ["wsl", "--export", old,
            joinPath tmp (old ++ "_export.tar")]) "Error:") = true) :
    rename_worker run old new tmp home smsg =
      ⟨[["wsl", "--export", old, joinPath tmp (old ++ "_export.tar")]], [], [],
       "Export failed:\n" ++
         run ["wsl", "--export", old, joinPath tmp (old ++ "_export.tar")]⟩ := by
  simp [rename_worker, h]

/-- C6 witness: a concrete failing export. -/
theorem export_failure_halts_witness :
    (pyTruthy (alwaysErrorRun ["wsl", "--export", "Ubuntu",
        joinPath "C:\\Temp" ("Ubuntu" ++ "_export.tar")]) &&
     pyStartsWith (alwaysErrorRun ["wsl", "--export", "Ubuntu",
        joinPath "C:\\Temp" ("Ubuntu" ++ "_export.tar")]) "Error:") = true ∧
    rename_worker alwaysErrorRun "Ubuntu" "Mint" "C:\\Temp" "C:\\Users\\me" "ok" =
      ⟨[["wsl", "--export", "Ubuntu",
         joinPath "C:\\Temp" ("Ubuntu" ++ "_export.tar")]], [], [],
       "Export failed:\n" ++ alwaysErrorRun ["wsl", "--export", "Ubuntu",
         joinPath "C:\\Temp" ("Ubuntu" ++ "_export.tar")]⟩ :=
  ⟨by decide,
   export_failure_halts alwaysErrorRun "Ubuntu" "Mint" "C:\\Temp"
     "C:\\Users\\me" "ok" (by decide)⟩

/-- C7: after a refresh whose list command produced no output, an
error-prefixed output, or an output that strips to nothing, the
registry snapshot is empty, whatever snapshot was present before the
refresh (the tree is cleared before the command runs and nothing is
merged back). -/
theorem failed_refresh_empties_registry (prior : List Instance)
    (output : Option String)
    (h : output = none ∨ ∃ s, output = some s ∧
         (pyStartsWith s "Error:" = true ∨ pyStrip s.toList = [])) :
    populate_wsl_list prior output = [] := by
  rcases h with rfl | ⟨s, rfl, hs⟩
  · rfl
  · rcases hs with hs | hs
    · simp [populate_wsl_list, hs]
    · by_cases hb : pyStartsWith s "Error:" = true
      · simp [populate_wsl_list, hb]
      · have hb2 : pyStartsWith s "Error:" = false := by
          rwa [Bool.not_eq_true] at hb
        simp only [populate_wsl_list, hb2, Bool.false_eq_true, if_false,
          parseWSLOutput, hs]
        rfl

/-- C7 witness: a stale one-entry snapshot is wiped by a failing
refresh. -/
theorem failed_refresh_empties_registry_witness :
    ((some "Error: boom" : Option String) = none ∨
     ∃ s, (some "Error: boom" : Option String) = some s ∧
       (pyStartsWith s "Error:" = true ∨ pyStrip s.toList = [])) ∧
    populate_wsl_list [⟨"Ubuntu", "Stopped", "2"⟩] (some "Error: boom") = [] :=
  ⟨Or.inr ⟨"Error: boom", rfl, Or.inl (by decide)⟩,
   failed_refresh_empties_registry [⟨"Ubuntu", "Stopped", "2"⟩]
     (some "Error: boom") (Or.inr ⟨"Error: boom", rfl, Or.inl (by decide)⟩)⟩

/-- C1 counterexample: when the unregister step fails after a
successful export, the code *deletes* the temporary export archive
(`os.remove(export_file)` at line 321) instead of leaving it in place,
and the failure message identifies the step but does not mention the
archive location: the claim as stated is false of the code. -/
theorem unregister_failure_deletes_archive :
    (rename_worker unregisterFailRun "Ubuntu" "Mint" "C:\\Temp"
        "C:\\Users\\me" "done").commands =
      [["wsl", "--export", "Ubuntu", "C:\\Temp\\Ubuntu_export.tar"],
       ["wsl", "--unregister", "Ubuntu"]] ∧
    (rename_worker unregisterFailRun "Ubuntu" "Mint" "C:\\Temp"
        "C:\\Users\\me" "done").removed = ["C:\\Temp\\Ubuntu_export.tar"] ∧
    (rename_worker unregisterFailRun "Ubuntu" "Mint" "C:\\Temp"
        "C:\\Users\\me" "done").result =
      "Unregister failed:\nError: Command Error\nAccess is denied." ∧
    pyContains (rename_worker unregisterFailRun "Ubuntu" "Mint" "C:\\Temp"
        "C:\\Users\\me" "done").result "C:\\Temp\\Ubuntu_export.tar" = false := by
  decide

/-- C1 (amended): if the unregister step fails after a successful
export, the operation aborts — the import command is never invoked —
the temporary export archive is *deleted*, and the user-facing failure
message identifies the failed step (`Unregister failed:`) with the raw
tool error appended, but does not name the archive location. -/
theorem unregister_failure_aborts (run : List String → String)
    (old new tmp home smsg : String)
    (h1 : (pyTruthy (run ["wsl", "--export", old,
             joinPath tmp (old ++ "_export.tar")]) &&
           pyStartsWith (run ["wsl", "--export", old,
             joinPath tmp (old ++ "_export.tar")]) "Error:") = false)
    (h2 : (pyTruthy (run ["wsl", "--unregister", old]) &&
           pyStartsWith (run ["wsl", "--unregister", old]) "Error:") = true) :
    rename_worker run old new tmp home smsg =
      ⟨[["wsl", "--export", old, joinPath tmp (old ++ "_export.tar")],
        ["wsl", "--unregister", old]],
       [joinPath tmp (old ++ "_export.tar")], [],
       "Unregister failed:\n" ++ run ["wsl", "--unregister", old]⟩ := by
  simp [rename_worker, h1, h2]

/-- C1 witness: the concrete unregister-failure scenario satisfies the
hypotheses of `unregister_failure_aborts`. -/
theorem unregister_failure_aborts_witness :
    (pyTruthy (unregisterFailRun ["wsl", "--export", "Ubuntu",
        joinPath "C:\\Temp" ("Ubuntu" ++ "_export.tar")]) &&
     pyStartsWith (unregisterFailRun ["wsl", "--export", "Ubuntu",
        joinPath "C:\\Temp" ("Ubuntu" ++ "_export.tar")]) "Error:") = false ∧
    (pyTruthy (unregisterFailRun ["wsl", "--unregister", "Ubuntu"]) &&
     pyStartsWith (unregisterFailRun ["wsl", "--unregister", "Ubuntu"])
       "Error:") = true ∧
    rename_worker unregisterFailRun "Ubuntu" "Mint" "C:\\Temp"
      "C:\\Users\\me" "done" =
      ⟨[["wsl", "--export", "Ubuntu",
         joinPath "C:\\Temp" ("Ubuntu" ++ "_export.tar")],
        ["wsl", "--unregister", "Ubuntu"]],
       [joinPath "C:\\Temp" ("Ubuntu" ++ "_export.tar")], [],
       "Unregister failed:\n" ++ unregisterFailRun ["wsl", "--unregister", "Ubuntu"]⟩ :=
  ⟨by decide, by decide,
   unregister_failure_aborts unregisterFailRun "Ubuntu" "Mint" "C:\\Temp"
     "C:\\Users\\me" "done" (by decide) (by decide)⟩

/-- A message whose lowered prefix contains `failed` is classified as
an error, whatever text follows. -/
theorem check_lower_sandwich (pre r : String) (l rest : List Char)
    (h : pre.toList.map Char.toLower = l ++ ("failed".toList ++ rest)) :
    check_rename_status (pre ++ r) = Dialog.error := by
  have hlist : (pyLower (pre ++ r)).toList =
      l ++ ("failed".toList ++ (rest ++ r.toList.map Char.toLower)) := by
    show (pre ++ r).toList.map Char.toLower = _
    rw [toList_string_append, List.map_append, h]
    simp [List.append_assoc]
  have hc : pyContains (pyLower (pre ++ r)) "failed" = true := by
    show containsSubL "failed".toList (pyLower (pre ++ r)).toList = true
    rw [hlist]
    exact containsSubL_sandwich "failed".toList l
      (rest ++ r.toList.map Char.toLower)
  simp [check_rename_status, hc]

/-- C9: the completed rename result is surfaced as an error dialog if
and only if the result message contains the substring `failed`
case-insensitively; each of the worker's step-failure messages
(whatever raw tool error is appended) is therefore always surfaced as
an error, a localized success message that happens to contain
`failed` is reported as an error, and a failure-describing message
lacking the substring would be reported as success. -/
theorem rename_dialog_iff_failed_substring :
    (∀ m : String, check_rename_status m = Dialog.error ↔
      pyContains (pyLower m) "failed" = true) ∧
    (∀ r : String, check_rename_status ("Export failed:\n" ++ r) =
      Dialog.error) ∧
    (∀ r : String, check_rename_status ("Unregister failed:\n" ++ r) =
      Dialog.error) ∧
    (∀ r : String, check_rename_status ("Import failed:\n" ++ r) =
      Dialog.error) ∧
    check_rename_status "Rename Failed-checks: none, operation complete" =
      Dialog.error ∧
    check_rename_status "Erreur: le renommage a echoue" = Dialog.info := by
  refine ⟨?_, ?_, ?_, ?_, by decide, by decide⟩
  · intro m
    simp only [check_rename_status]
    split
    · rename_i hb
      simp [hb]
    · rename_i hb
      simp [hb]
  · intro r
    exact check_lower_sandwich "Export failed:\n" r "export ".toList
      ":\n".toList (by decide)
  · intro r
    exact check_lower_sandwich "Unregister failed:\n" r "unregister ".toList
      ":\n".toList (by decide)
  · intro r
    exact check_lower_sandwich "Import failed:\n" r "import ".toList
      ":\n".toList (by decide)

/-- C10: every instance name produced by the parser is free of spaces,
ASCII whitespace and NUL characters (the sanitizer removes them all),
so the shortcut-command construction never takes the quote-wrapping
branch for a parser-produced name. -/
theorem parsed_name_shortcut_unquoted (line : String) (inst : Instance)
    (h : parseLine line = some inst) :
    (∀ c ∈ inst.name.toList, c ≠ ' ' ∧ c.isWhitespace = false ∧ c ≠ '\x00') ∧
    pyInChar ' ' inst.name = false ∧
    shortcut_command inst.name = "wsl.exe -d " ++ inst.name := by
  obtain ⟨p0, hname⟩ : ∃ p0, inst.name = String.mk (sanitizeL p0) := by
    simp only [parseLine, parseLineL] at h
    split at h
    · exact absurd h (by simp)
    · split at h
      · rename_i p0 p1 p2 heq
        refine ⟨p0, ?_⟩
        injection h with h2
        rw [← h2]
      · exact absurd h (by simp)
  have hns : pyInChar ' ' inst.name = false := by
    rw [hname]
    cases hany : (sanitizeL p0).any (fun a => a == ' ') with
    | false => exact hany
    | true =>
      exfalso
      obtain ⟨x, hx, hxe⟩ := List.any_eq_true.mp hany
      have hprop := nameKeep_not_space (List.mem_filter.mp hx).2
      exact hprop.1 (by simpa using hxe)
  refine ⟨?_, hns, ?_⟩
  · intro c hc
    rw [hname] at hc
    exact nameKeep_not_space (List.mem_filter.mp hc).2
  · simp [shortcut_command, hns]

/-- C10 witness: the parsed `Ubuntu` row takes the unquoted branch. -/
theorem parsed_name_shortcut_unquoted_witness :
    parseLine "  Ubuntu    Stopped    2" = some ⟨"Ubuntu", "Stopped", "2"⟩ ∧
    ((∀ c ∈ ("Ubuntu" : String).toList,
        c ≠ ' ' ∧ c.isWhitespace = false ∧ c ≠ '\x00') ∧
     pyInChar ' ' "Ubuntu" = false ∧
     shortcut_command "Ubuntu" = "wsl.exe -d " ++ "Ubuntu") :=
  ⟨by decide,
   parsed_name_shortcut_unquoted "  Ubuntu    Stopped    2"
     ⟨"Ubuntu", "Stopped", "2"⟩ (by decide)⟩
